import Mathlib

/-!
Verification of the `sev-iocuddle` crate: a shallow embedding of its
error-classification layer, command records, ioctl registry, encrypted-region
descriptor, raw load/save primitives and `Version` type, together with
theorems settling the specification's claims about them.
-/

namespace SevIocuddle

/-- A transport-level OS error (`std::io::Error`), modelled by its raw
OS status code.  The crate never inspects the contents of such an error;
it only wraps it, so the raw code is all we need to carry. -/
structure IoErr where
  raw : Int
deriving DecidableEq, Repr

/-- Error conditions returned by the SEV platform or by layers above it.
Embedding of `error::Error` from `src/lib.rs`. -/
inductive Error where
  | IoError (e : IoErr)
  | InvalidPlatformState
  | InvalidGuestState
  | InvalidConfig
  | InvalidLen
  | AlreadyOwned
  | InvalidCertificate
  | PolicyFailure
  | Inactive
  | InvalidAddress
  | BadSignature
  | BadMeasurement
  | AsidOwned
  | InvalidAsid
  | WbinvdRequired
  | DfFlushRequired
  | InvalidGuest
  | InvalidCommand
  | Active
  | HardwarePlatform
  | HardwareUnsafe
  | Unsupported
  | InvalidParam
  | ResourceLimit
  | SecureDataInvalid
deriving DecidableEq, Repr

/-- Embedding of `error::Indeterminate<T>` from `src/lib.rs`: either a
known error condition or an unknown one. -/
inductive Indeterminate (T : Type) where
  | Known (t : T)
  | Unknown
deriving DecidableEq, Repr

/-- Embedding of `impl Display for Error` in `src/lib.rs`: the fixed
human-readable phrase for each error variant. -/
def Error.display : Error → String
  | .IoError _ => "I/O Error"
  | .InvalidPlatformState => "Invalid platform state"
  | .InvalidGuestState => "Invalid guest state"
  | .InvalidConfig => "Platform configuration invalid"
  | .InvalidLen => "Memory buffer too small"
  | .AlreadyOwned => "Platform is already owned"
  | .InvalidCertificate => "Invalid certificate"
  | .PolicyFailure => "Policy failure"
  | .Inactive => "Guest is inactive"
  | .InvalidAddress => "Provided address is invalid"
  | .BadSignature => "Provided signature is invalid"
  | .BadMeasurement => "Provided measurement is invalid"
  | .AsidOwned => "ASID is already owned"
  | .InvalidAsid => "ASID is invalid"
  | .WbinvdRequired => "WBINVD instruction required"
  | .DfFlushRequired => "DF_FLUSH invocation required"
  | .InvalidGuest => "Guest handle is invalid"
  | .InvalidCommand => "Issued command is invalid"
  | .Active => "Guest is active"
  | .HardwarePlatform => "Hardware condition occured, safe to re-allocate parameter buffers"
  | .HardwareUnsafe => "Hardware condition occured, unsafe to re-allocate parameter buffers"
  | .Unsupported => "Feature is unsupported"
  | .InvalidParam => "Given parameter is invalid"
  | .ResourceLimit => "SEV firmware has run out of required resources to carry out command"
  | .SecureDataInvalid => "SEV platform observed a failed integrity check"

/-- Embedding of `impl From<std::io::Error> for Error`: wrap the transport
error into the taxonomy. -/
def Error.fromIoErr (e : IoErr) : Error := .IoError e

/-- Embedding of `impl From<std::io::Error> for Indeterminate<Error>`:
a transport error is always a known condition. -/
def Indeterminate.fromIoErr (e : IoErr) : Indeterminate Error :=
  .Known (Error.fromIoErr e)

/-- Embedding of `impl From<u32> for Indeterminate<Error>` in `src/lib.rs`.
The Rust code's call to `std::io::Error::last_os_error()` reads ambient OS
state; that state is passed here explicitly as `lastOsError`.  The numeric
code `error` is a `u32`, modelled as `Nat` (the match is over its value). -/
def Indeterminate.fromU32 (lastOsError : IoErr) (error : Nat) : Indeterminate Error :=
  match error with
  | 0 => Indeterminate.fromIoErr lastOsError
  | 1 => .Known .InvalidPlatformState
  | 2 => .Known .InvalidGuestState
  | 3 => .Known .InvalidConfig
  | 4 => .Known .InvalidLen
  | 5 => .Known .AlreadyOwned
  | 6 => .Known .InvalidCertificate
  | 7 => .Known .PolicyFailure
  | 8 => .Known .Inactive
  | 9 => .Known .InvalidAddress
  | 10 => .Known .BadSignature
  | 11 => .Known .BadMeasurement
  | 12 => .Known .AsidOwned
  | 13 => .Known .InvalidAsid
  | 14 => .Known .WbinvdRequired
  | 15 => .Known .DfFlushRequired
  | 16 => .Known .InvalidGuest
  | 17 => .Known .InvalidCommand
  | 18 => .Known .Active
  | 19 => .Known .HardwarePlatform
  | 20 => .Known .HardwareUnsafe
  | 21 => .Known .Unsupported
  | 22 => .Known .InvalidParam
  | 23 => .Known .ResourceLimit
  | 24 => .Known .SecureDataInvalid
  | _ => .Unknown

/-- Embedding of `sev::Command` from `src/sev.rs` (the platform variant of
`struct sev_issue_cmd`): fields `code : u32`, `data : u64`, `error : u32`.
The `PhantomData` lifetime marker carries no runtime data and is omitted. -/
structure SevCommand where
  code : Nat
  data : Nat
  error : Nat
deriving DecidableEq, Repr

namespace SevCommand

/-- Embedding of `sev::Command::from_mut`.  In Rust, `T::ID` is the
compile-time ID of the marker type and `subcmd as *mut T as u64` the
argument's address; both are passed here explicitly. -/
def fromMut (id addr : Nat) : SevCommand :=
  { code := id, data := addr, error := 0 }

/-- Embedding of `sev::Command::from` (named `fromImm` since `from` is a
Lean keyword).  `subcmd as *const T as u64` is the argument's address. -/
def fromImm (id addr : Nat) : SevCommand :=
  { code := id, data := addr, error := 0 }

/-- Embedding of `sev::Command::encapsulate`.  `err` is the transport-level
`std::io::Error` argument; `lastOsError` is the ambient OS status that
`Indeterminate::from(u32)` would read were the nonzero path to hit code 0
(it cannot, but the embedding threads the state faithfully). -/
def encapsulate (self : SevCommand) (lastOsError err : IoErr) : Indeterminate Error :=
  match self.error with
  | 0 => Indeterminate.fromIoErr err
  | _ => Indeterminate.fromU32 lastOsError self.error

end SevCommand

/-- Embedding of `kvm::Command` from `src/kvm.rs` (the hypervisor variant):
fields `code : u32`, `data : u64`, `error : u32`, `sev_fd : u32`. -/
structure KvmCommand where
  code : Nat
  data : Nat
  error : Nat
  sev_fd : Nat
deriving DecidableEq, Repr

namespace KvmCommand

/-- Embedding of `kvm::Command::from_mut`: `fd` is `sev.as_raw_fd()`,
the device's raw file descriptor. -/
def fromMut (fd id addr : Nat) : KvmCommand :=
  { code := id, data := addr, error := 0, sev_fd := fd }

/-- Embedding of `kvm::Command::from` (named `fromImm`, see above). -/
def fromImm (fd id addr : Nat) : KvmCommand :=
  { code := id, data := addr, error := 0, sev_fd := fd }

/-- Embedding of `kvm::Command::encapsulate` (same body as the platform
variant's `encapsulate`). -/
def encapsulate (self : KvmCommand) (lastOsError err : IoErr) : Indeterminate Error :=
  match self.error with
  | 0 => Indeterminate.fromIoErr err
  | _ => Indeterminate.fromU32 lastOsError self.error

end KvmCommand

/-- Transfer direction of an ioctl in the `iocuddle` framework
(type-level tags `Read`, `Write`, `WriteRead` in Rust, modelled as data). -/
inductive Direction where
  | Read
  | Write
  | WriteRead
deriving DecidableEq, Repr

/-- Modelled from the spec: an Operation Registry entry of the external
`iocuddle` framework binds an 8-bit group code, an 8-bit operation number
and a declared transfer direction.  In Rust the direction is the first type
parameter of `Ioctl<D, T>`; here it is a field. -/
structure Ioctl where
  dir : Direction
  group : Nat
  nr : Nat
deriving DecidableEq, Repr

/-- Modelled from the spec: an `iocuddle::Group`, an 8-bit group code. -/
structure Group where
  group : Nat
deriving DecidableEq, Repr

/-- Modelled from the spec: `Group::new`. -/
def Group.new (g : Nat) : Group := { group := g }

/-- Modelled from the spec: `Group::read(nr)` declares a read-direction
ioctl (the framework's nominal declaration) with the group's code. -/
def Group.read (g : Group) (nr : Nat) : Ioctl :=
  { dir := .Read, group := g.group, nr := nr }

/-- Modelled from the spec: `Group::write_read(nr)` declares a
bidirectional write-read ioctl with the group's code. -/
def Group.write_read (g : Group) (nr : Nat) : Ioctl :=
  { dir := .WriteRead, group := g.group, nr := nr }

/-- Modelled from the spec: `Ioctl::lie()` overrides the declared
transfer direction to the one named by the ascribed Rust type (passed
here explicitly as `d`), keeping group and number. -/
def Ioctl.lie (i : Ioctl) (d : Direction) : Ioctl :=
  { i with dir := d }

/-- Embedding of `kvm::KVM` from `src/kvm.rs`: `Group::new(0xAE)`. -/
def KVM : Group := Group.new 0xAE

/-- Embedding of `kvm::ENC_OP`: `KVM.write_read(0xBA)` with Rust type
`Ioctl<WriteRead, &c_ulong>`. -/
def ENC_OP : Ioctl := KVM.write_read 0xBA

/-- Embedding of `kvm::ENC_REG_REGION`: `KVM.read::<KvmEncRegion>(0xBB).lie()`
with ascribed Rust type `Ioctl<Write, &KvmEncRegion>`. -/
def ENC_REG_REGION : Ioctl := (KVM.read 0xBB).lie .Write

/-- Embedding of `kvm::ENC_UNREG_REGION`:
`KVM.read::<KvmEncRegion>(0xBC).lie()` with ascribed Rust type
`Ioctl<Write, &KvmEncRegion>`. -/
def ENC_UNREG_REGION : Ioctl := (KVM.read 0xBC).lie .Write

/-- Embedding of `kvm::KvmEncRegion` from `src/kvm.rs` (kernel struct
`kvm_enc_region`): `addr : u64`, `size : u64`; the `PhantomData` lifetime
marker carries no runtime data and is omitted. -/
structure KvmEncRegion where
  addr : Nat
  size : Nat
deriving DecidableEq, Repr

/-- Embedding of `KvmEncRegion::new(data: &[u8])`.  The borrowed slice is
modelled as its starting address `dataAddr` (`data.as_ptr()`) together with
its byte contents `data`; the constructor stores the address and
`data.len()` and never touches the contents. -/
def KvmEncRegion.new (dataAddr : Nat) (data : List Nat) : KvmEncRegion :=
  { addr := dataAddr, size := data.length }

/-- Result of a `load` call on a byte stream: the value's bytes on
success (`none` on a short read), and the bytes left in the stream
afterwards. -/
structure LoadResult where
  value : Option (List Nat)
  rest : List Nat
deriving DecidableEq, Repr

/-- Embedding of `TypeLoad::load::<T>` from `src/util.rs`.  A value of the
trivially-copyable type `T` is its bit pattern, a byte list of length
`size_of::<T>()` (passed as `n`); the reader is the list of bytes remaining
in the stream.  `read_exact` fills a `size_of::<T>()`-byte buffer: on
success it consumes exactly `n` bytes; when fewer than `n` remain it
consumes what remains and fails with `UnexpectedEof` (a short read). -/
def typeLoad (n : Nat) (stream : List Nat) : LoadResult :=
  if n ≤ stream.length then
    { value := some (stream.take n), rest := stream.drop n }
  else
    { value := none, rest := [] }

/-- Embedding of `TypeSave::save::<T>` from `src/util.rs`: `write_all`
appends the `size_of::<T>()` bytes of the value's representation to the
output stream. -/
def typeSave (value : List Nat) (stream : List Nat) : List Nat :=
  stream ++ value

/-- Embedding of `sev::Version` from `src/sev.rs`: major and minor are
`u8`; modelled as `Nat` (ordering and display do not depend on the bound). -/
structure Version where
  major : Nat
  minor : Nat
deriving DecidableEq, Repr

/-- Embedding of the `derive(PartialOrd, Ord)` on `Version`: Rust's derived
order compares fields in declaration order, major first, then minor. -/
def Version.cmp (a b : Version) : Ordering :=
  match compare a.major b.major with
  | .eq => compare a.minor b.minor
  | o => o

/-- Embedding of `impl Display for Version`: `"{major}.{minor}"`
in decimal. -/
def Version.display (v : Version) : String :=
  toString v.major ++ "." ++ toString v.minor

/-- The default arm of `From<u32>` covers every code from 25 upward. -/
theorem fromU32_ge_25 (e : IoErr) (k : Nat) :
    Indeterminate.fromU32 e (k + 25) = .Unknown := rfl

/-- C1: for every Command record and transport error `e`, `encapsulate e`
maps a nonzero `error` field through the `From<u32>` table (ignoring `e`),
and wraps `e` itself as `Known (IoError e)` when the `error` field is zero,
for both the platform (sev) and hypervisor (kvm) variants. -/
theorem encapsulate_spec (s : SevCommand) (k : KvmCommand) (lastOs e : IoErr) :
    (s.error ≠ 0 → s.encapsulate lastOs e = Indeterminate.fromU32 lastOs s.error) ∧
    (s.error = 0 → s.encapsulate lastOs e = .Known (.IoError e)) ∧
    (k.error ≠ 0 → k.encapsulate lastOs e = Indeterminate.fromU32 lastOs k.error) ∧
    (k.error = 0 → k.encapsulate lastOs e = .Known (.IoError e)) := by
  obtain ⟨sc, sd, se⟩ := s
  obtain ⟨kc, kd, ke, kf⟩ := k
  refine ⟨?_, ?_, ?_, ?_⟩ <;> intro h <;>
    simp only at h ⊢ <;>
    cases se <;> cases ke <;>
    simp_all [SevCommand.encapsulate, KvmCommand.encapsulate,
      Indeterminate.fromIoErr, Error.fromIoErr]

/-- Witness for C1: the four branches of `encapsulate_spec` at concrete
records with `error = 7` and `error = 0`. -/
theorem encapsulate_spec_witness :
    (SevCommand.mk 1 100 7).encapsulate ⟨5⟩ ⟨6⟩ = Indeterminate.fromU32 ⟨5⟩ 7 ∧
    (SevCommand.mk 1 100 0).encapsulate ⟨5⟩ ⟨6⟩ = .Known (.IoError ⟨6⟩) ∧
    (KvmCommand.mk 1 100 7 3).encapsulate ⟨5⟩ ⟨6⟩ = Indeterminate.fromU32 ⟨5⟩ 7 ∧
    (KvmCommand.mk 1 100 0 3).encapsulate ⟨5⟩ ⟨6⟩ = .Known (.IoError ⟨6⟩) := by
  refine ⟨?_, ?_, ?_, ?_⟩
  · exact (encapsulate_spec (SevCommand.mk 1 100 7) (KvmCommand.mk 1 100 7 3)
      ⟨5⟩ ⟨6⟩).1 (by decide)
  · exact (encapsulate_spec (SevCommand.mk 1 100 0) (KvmCommand.mk 1 100 0 3)
      ⟨5⟩ ⟨6⟩).2.1 rfl
  · exact (encapsulate_spec (SevCommand.mk 1 100 7) (KvmCommand.mk 1 100 7 3)
      ⟨5⟩ ⟨6⟩).2.2.1 (by decide)
  · exact (encapsulate_spec (SevCommand.mk 1 100 0) (KvmCommand.mk 1 100 0 3)
      ⟨5⟩ ⟨6⟩).2.2.2 rfl

/-- C2: for each firmware code 1 through 24, `From<u32>` classification
returns `Known v` for exactly the documented variant `v`, independent of
the ambient OS status, and `Display v` renders the documented phrase. -/
theorem classify_known_codes (le : IoErr) :
    Indeterminate.fromU32 le 1 = .Known .InvalidPlatformState ∧
    Error.display .InvalidPlatformState = "Invalid platform state" ∧
    Indeterminate.fromU32 le 2 = .Known .InvalidGuestState ∧
    Error.display .InvalidGuestState = "Invalid guest state" ∧
    Indeterminate.fromU32 le 3 = .Known .InvalidConfig ∧
    Error.display .InvalidConfig = "Platform configuration invalid" ∧
    Indeterminate.fromU32 le 4 = .Known .InvalidLen ∧
    Error.display .InvalidLen = "Memory buffer too small" ∧
    Indeterminate.fromU32 le 5 = .Known .AlreadyOwned ∧
    Error.display .AlreadyOwned = "Platform is already owned" ∧
    Indeterminate.fromU32 le 6 = .Known .InvalidCertificate ∧
    Error.display .InvalidCertificate = "Invalid certificate" ∧
    Indeterminate.fromU32 le 7 = .Known .PolicyFailure ∧
    Error.display .PolicyFailure = "Policy failure" ∧
    Indeterminate.fromU32 le 8 = .Known .Inactive ∧
    Error.display .Inactive = "Guest is inactive" ∧
    Indeterminate.fromU32 le 9 = .Known .InvalidAddress ∧
    Error.display .InvalidAddress = "Provided address is invalid" ∧
    Indeterminate.fromU32 le 10 = .Known .BadSignature ∧
    Error.display .BadSignature = "Provided signature is invalid" ∧
    Indeterminate.fromU32 le 11 = .Known .BadMeasurement ∧
    Error.display .BadMeasurement = "Provided measurement is invalid" ∧
    Indeterminate.fromU32 le 12 = .Known .AsidOwned ∧
    Error.display .AsidOwned = "ASID is already owned" ∧
    Indeterminate.fromU32 le 13 = .Known .InvalidAsid ∧
    Error.display .InvalidAsid = "ASID is invalid" ∧
    Indeterminate.fromU32 le 14 = .Known .WbinvdRequired ∧
    Error.display .WbinvdRequired = "WBINVD instruction required" ∧
    Indeterminate.fromU32 le 15 = .Known .DfFlushRequired ∧
    Error.display .DfFlushRequired = "DF_FLUSH invocation required" ∧
    Indeterminate.fromU32 le 16 = .Known .InvalidGuest ∧
    Error.display .InvalidGuest = "Guest handle is invalid" ∧
    Indeterminate.fromU32 le 17 = .Known .InvalidCommand ∧
    Error.display .InvalidCommand = "Issued command is invalid" ∧
    Indeterminate.fromU32 le 18 = .Known .Active ∧
    Error.display .Active = "Guest is active" ∧
    Indeterminate.fromU32 le 19 = .Known .HardwarePlatform ∧
    Error.display .HardwarePlatform =
      "Hardware condition occured, safe to re-allocate parameter buffers" ∧
    Indeterminate.fromU32 le 20 = .Known .HardwareUnsafe ∧
    Error.display .HardwareUnsafe =
      "Hardware condition occured, unsafe to re-allocate parameter buffers" ∧
    Indeterminate.fromU32 le 21 = .Known .Unsupported ∧
    Error.display .Unsupported = "Feature is unsupported" ∧
    Indeterminate.fromU32 le 22 = .Known .InvalidParam ∧
    Error.display .InvalidParam = "Given parameter is invalid" ∧
    Indeterminate.fromU32 le 23 = .Known .ResourceLimit ∧
    Error.display .ResourceLimit =
      "SEV firmware has run out of required resources to carry out command" ∧
    Indeterminate.fromU32 le 24 = .Known .SecureDataInvalid ∧
    Error.display .SecureDataInvalid =
      "SEV platform observed a failed integrity check" := by
  refine ⟨rfl, rfl, rfl, rfl, rfl, rfl, rfl, rfl, rfl, rfl, rfl, rfl, rfl, rfl,
    rfl, rfl, rfl, rfl, rfl, rfl, rfl, rfl, rfl, rfl, rfl, rfl, rfl, rfl, rfl,
    rfl, rfl, rfl, rfl, rfl, rfl, rfl, rfl, rfl, rfl, rfl, rfl, rfl, rfl, rfl,
    rfl, rfl, rfl, rfl⟩

/-- C3: every `u32` code from 25 upward classifies to `Unknown`, never to
any `Known` variant, independent of the ambient OS status. -/
theorem classify_unknown_codes (e : IoErr) (c : Nat) (h : 25 ≤ c) :
    Indeterminate.fromU32 e c = .Unknown := by
  obtain ⟨k, rfl⟩ : ∃ k, c = k + 25 := ⟨c - 25, by omega⟩
  exact fromU32_ge_25 e k

/-- Witness for C3 at the concrete code 4096. -/
theorem classify_unknown_codes_witness :
    25 ≤ 4096 ∧ Indeterminate.fromU32 ⟨0⟩ 4096 = .Unknown :=
  ⟨by decide, classify_unknown_codes ⟨0⟩ 4096 (by decide)⟩

/-- C4: classifying code 0 yields `Known (IoError lastOs)` where `lastOs`
is the OS's last-reported status at classification time; it is never
`Unknown` (and the codomain `Indeterminate Error` has no success value at
all, so no success is ever produced). -/
theorem classify_zero (lastOs : IoErr) :
    Indeterminate.fromU32 lastOs 0 = .Known (.IoError lastOs) ∧
    Indeterminate.fromU32 lastOs 0 ≠ .Unknown :=
  ⟨rfl, fun h => nomatch h⟩

/-- C5: the two hypervisor region operations carry the write-only direction
override (group 0xAE, numbers 0xBB and 0xBC) even though the framework's
nominal `Group::read` declaration for those codes is read-direction, while
`ENC_OP` (0xBA) keeps the bidirectional write-read direction. -/
theorem registry_directions :
    ENC_REG_REGION = { dir := .Write, group := 0xAE, nr := 0xBB } ∧
    ENC_UNREG_REGION = { dir := .Write, group := 0xAE, nr := 0xBC } ∧
    ENC_OP = { dir := .WriteRead, group := 0xAE, nr := 0xBA } ∧
    (KVM.read 0xBB).dir = .Read ∧
    (KVM.read 0xBC).dir = .Read := by
  decide

/-- C6: saving a value's `n`-byte bit pattern writes exactly `n` bytes, and
loading from the resulting stream (with arbitrary downstream bytes after
it) reads back exactly those `n` bytes, reproducing the bit pattern and
leaving the downstream bytes untouched; `n = 0` (zero-sized types) is
included. -/
theorem save_load_roundtrip (n : Nat) (bytes rest : List Nat)
    (h : bytes.length = n) :
    (typeSave bytes []).length = n ∧
    typeLoad n (typeSave bytes [] ++ rest) = { value := some bytes, rest := rest } := by
  subst h
  refine ⟨by simp [typeSave], ?_⟩
  simp only [typeSave, List.nil_append, typeLoad, List.length_append,
    Nat.le_add_right, if_pos, List.take_left, List.drop_left]

/-- Witness for C6 at a 3-byte value with downstream bytes, and at a
zero-sized value. -/
theorem save_load_roundtrip_witness :
    ([1, 2, 3] : List Nat).length = 3 ∧
    ((typeSave [1, 2, 3] []).length = 3 ∧
      typeLoad 3 (typeSave [1, 2, 3] [] ++ [9, 9]) =
        { value := some [1, 2, 3], rest := [9, 9] }) ∧
    ((typeSave ([] : List Nat) []).length = 0 ∧
      typeLoad 0 (typeSave ([] : List Nat) [] ++ [7]) =
        { value := some [], rest := [7] }) :=
  ⟨by decide, save_load_roundtrip 3 [1, 2, 3] [9, 9] (by decide),
    save_load_roundtrip 0 [] [7] (by decide)⟩

/-- C7: loading a `n`-byte value from a stream with fewer than `n` bytes
remaining fails (no partially-filled value is ever returned as success).
Every byte `read_exact` consumes in that case lies within the value's own
would-be `n`-byte region — the stream holds fewer than `n` bytes in total —
so no unrelated downstream byte is consumed. -/
theorem load_short_read (n : Nat) (stream : List Nat)
    (h : stream.length < n) :
    (typeLoad n stream).value = none ∧ (typeLoad n stream).rest = [] := by
  simp [typeLoad, Nat.not_le.mpr h]

/-- Witness for C7: a 2-byte stream cannot supply a 3-byte value. -/
theorem load_short_read_witness :
    ([1, 2] : List Nat).length < 3 ∧
    ((typeLoad 3 [1, 2]).value = none ∧ (typeLoad 3 [1, 2]).rest = []) :=
  ⟨by decide, load_short_read 3 [1, 2] (by decide)⟩

/-- C8: both constructors store the marker type's compile-time ID as
`code`, the argument's address as `data`, and zero as `error` (the
hypervisor variant additionally stores the device's raw file descriptor);
`from` and `from_mut` agree on every input, for both variants. -/
theorem command_construction (id addr fd : Nat) :
    SevCommand.fromMut id addr = { code := id, data := addr, error := 0 } ∧
    SevCommand.fromImm id addr = SevCommand.fromMut id addr ∧
    KvmCommand.fromMut fd id addr =
      { code := id, data := addr, error := 0, sev_fd := fd } ∧
    KvmCommand.fromImm fd id addr = KvmCommand.fromMut fd id addr :=
  ⟨rfl, rfl, rfl, rfl⟩

/-- C9: a descriptor built from a byte range of length `L` at address `A`
stores exactly `addr = A` and `size = L` — the result depends only on the
address and the length, never on the range's contents (nothing is copied),
and `L = 0` is included. -/
theorem enc_region_new (A : Nat) (data : List Nat) :
    KvmEncRegion.new A data = { addr := A, size := data.length } ∧
    KvmEncRegion.new A [] = { addr := A, size := 0 } :=
  ⟨rfl, rfl⟩

/-- C10: the derived order on `Version` is the total lexicographic order,
major first then minor (`eq` exactly on equal pairs, `lt` exactly on
lexicographically-smaller pairs, `gt` exactly the flip of `lt`), the spec's
concrete comparisons hold, and `Display` renders `"major.minor"` in
decimal. -/
theorem version_order_display :
    (∀ a b : Version, Version.cmp a b = .eq ↔ a = b) ∧
    (∀ a b : Version, Version.cmp a b = .lt ↔
      (a.major < b.major ∨ (a.major = b.major ∧ a.minor < b.minor))) ∧
    (∀ a b : Version, Version.cmp a b = .gt ↔ Version.cmp b a = .lt) ∧
    Version.cmp { major := 1, minor := 9 } { major := 2, minor := 0 } = .lt ∧
    Version.cmp { major := 1, minor := 5 } { major := 1, minor := 6 } = .lt ∧
    Version.cmp { major := 1, minor := 40 } { major := 1, minor := 40 } = .eq ∧
    Version.display { major := 1, minor := 40 } = "1.40" ∧
    (∀ v : Version, Version.display v = toString v.major ++ "." ++ toString v.minor) := by
  have hcmp : ∀ a b : Version, Version.cmp a b = .lt ↔
      (a.major < b.major ∨ (a.major = b.major ∧ a.minor < b.minor)) := by
    intro ⟨am, an⟩ ⟨bm, bn⟩
    simp only [Version.cmp]
    cases h : compare am bm <;>
      simp_all [Nat.compare_eq_lt, Nat.compare_eq_eq, Nat.compare_eq_gt]
    omega
  refine ⟨?_, hcmp, ?_, by decide, by decide, by decide, rfl, fun _ => rfl⟩
  · intro ⟨am, an⟩ ⟨bm, bn⟩
    simp only [Version.cmp]
    cases h : compare am bm <;>
      simp_all [Nat.compare_eq_lt, Nat.compare_eq_eq, Nat.compare_eq_gt, Version.mk.injEq] <;>
      omega
  · intro a b
    rw [hcmp b a]
    obtain ⟨am, an⟩ := a
    obtain ⟨bm, bn⟩ := b
    simp only [Version.cmp]
    cases h : compare am bm <;>
      simp_all [Nat.compare_eq_lt, Nat.compare_eq_eq, Nat.compare_eq_gt]
    omega

end SevIocuddle
